import Mathlib

/-!
Verification of the obj_to_u3d conversion scripts.

Each Python function that a claim refers to is embedded as a Lean
definition.  External effects (subprocess return codes, filesystem
queries, glob expansion, environment variables) are passed in explicitly
as parameters or records, so every definition is executable and every
property can be checked on concrete inputs.

File mapping:
* `ExamplePdf`        — example_pdf.py
* `ConvertStlToU3d`   — convert_stl_to_u3d.py
* `ConvertObjToU3d`   — convert_obj_to_u3d.py
* `Pipeline`          — convert_obj_u3d_pipeline.py
* `PymeshlabU3d`      — pymeshlab_u3d_example.py
* `SetupPymeshlab`    — setup_pymeshlab_u3d.py
-/

namespace ExamplePdf

/-- The 4-byte magic sequence compared by `is_valid_u3d`
(example_pdf.py line 30): the bytes of the Python literal `b"U3D\x00"`. -/
def u3d_magic : List Nat := [0x55, 0x33, 0x44, 0x00]

/-- The magic comparison performed inside `is_valid_u3d`
(`header[0:4] != b"U3D\x00"`).  In the source its failure only prints a
warning and never makes the validator return False. -/
def has_valid_magic (fileBytes : List Nat) : Bool :=
  fileBytes.take 4 == u3d_magic

/-- `is_valid_u3d` from example_pdf.py (lines 19-43), on the byte content
of a readable file.  It reads a 32-byte header and rejects files shorter
than 32 bytes, only warns on a wrong magic sequence, and rejects files
smaller than 100 bytes; everything else is accepted. -/
def is_valid_u3d (fileBytes : List Nat) : Bool :=
  let header := fileBytes.take 32
  if header.length < 32 then false
  else
    -- the check `header[0:4] != b"U3D\x00"` only prints a warning here
    if fileBytes.length < 100 then false
    else true

/-- The byte content written by `create_dummy_u3d`
(example_pdf.py lines 45-77), decoded from its hex literal. -/
def create_dummy_u3d_data : List Nat :=
  [0x55, 0x33, 0x44, 0x00,
   0x00, 0x00, 0x00, 0x00,
   0xFF, 0xFF, 0xFF, 0xFF,
   0x00, 0x00, 0x00, 0x69,
   0x00, 0x00, 0x00, 0x0C,
   0x00, 0x00, 0x00, 0x20,
   0xFF, 0xFF, 0xFF, 0xFF, 0xFF, 0x00, 0x00, 0x01,
   0x00, 0x00, 0x00, 0x00, 0x00, 0x00, 0x00, 0x00,
   0x00, 0x00, 0x00, 0x10, 0x00, 0x00, 0x00, 0x00,
   0x00, 0x00, 0x00, 0x00, 0x00, 0x00, 0x00, 0x00,
   0x00, 0x00, 0x00, 0x00, 0x00, 0x00, 0x00, 0x00,
   0x00, 0x00, 0x00, 0x00, 0x00, 0x00, 0x00, 0x00]

/-- A PDF annotation as assembled by `embed_u3d` (example_pdf.py lines
134-198): its `/Type`, its `/Subtype`, and for 3D annotations the byte
data of the `/3DD` stream (`stream.stream = u3d_data`). -/
structure PdfAnnot where
  typeName : String
  subtype : String
  ddStreamData : Option (List Nat)
deriving DecidableEq

/-- The 3D annotation dictionary built by `embed_u3d`:
`/Type /Annot`, `/Subtype /3D`, and a `/3DD` stream holding exactly the
bytes read from the U3D file. -/
def mk_3d_annot (u3dData : List Nat) : PdfAnnot :=
  ⟨"Annot", "3D", some u3dData⟩

/-- `embed_u3d` (example_pdf.py lines 134-198) at the object level: it
appends one 3D annotation carrying the supplied U3D bytes to the page's
annotation array. -/
def embed_u3d (u3dData : List Nat) (pageAnnots : List PdfAnnot) : List PdfAnnot :=
  pageAnnots ++ [mk_3d_annot u3dData]

/-- The annotations of the base page produced by the ReportLab canvas in
`create_3d_pdf` (lines 106-123): it draws a title, a rectangle and an
instruction line, none of which is an annotation, so the page reaches
`embed_u3d` with an empty annotation array. -/
def base_page_annots : List PdfAnnot := []

/-- `create_3d_pdf` (example_pdf.py lines 79-132) on the main
(non-dummy) path: generate the base page, then embed the supplied U3D
bytes into it. -/
def create_3d_pdf (u3dData : List Nat) : List PdfAnnot :=
  embed_u3d u3dData base_page_annots

end ExamplePdf

namespace ConvertStlToU3d

/-- The byte content written by `create_placeholder_u3d`
(convert_stl_to_u3d.py lines 271-317), decoded from its hex literal. -/
def create_placeholder_u3d_data : List Nat :=
  [0x55, 0x33, 0x44, 0x00,
   0x00, 0x00, 0x00, 0x00,
   0x00, 0x00, 0x00, 0x00,
   0x00, 0x00, 0x01, 0x00,
   0x00, 0x00, 0x00, 0x00,
   0xFF, 0xFF, 0xFF, 0xFF,
   0x00, 0x00, 0x00, 0x00,
   0x00, 0x00, 0x00, 0x20,
   0xFF, 0xFF, 0xFF, 0xFF,
   0xFF, 0x00, 0x00, 0x00,
   0x00, 0x00, 0x00, 0x00,
   0x00, 0x00, 0x00, 0x00,
   0x00, 0x00, 0x00, 0x30,
   0x00, 0x00, 0x00, 0x00,
   0x01, 0x00, 0x00, 0x00,
   0x00, 0x00, 0x00, 0x00, 0x00, 0x00, 0x00, 0x00,
   0x00, 0x00, 0x00, 0x0A, 0x00, 0x00, 0x00, 0x00,
   0xCD, 0xCC, 0x4C, 0x3E, 0xCD, 0xCC, 0x4C, 0x3E,
   0x00, 0x00, 0x80, 0x3F, 0x00, 0x00, 0x00, 0x00,
   0x00, 0x00, 0x00, 0x00, 0x00, 0x00, 0x00, 0x00,
   0x01, 0x00, 0x00, 0x00,
   0x00, 0x00, 0x00, 0x00, 0x00, 0x00, 0x00, 0x00,
   0x01, 0x00, 0x00, 0x00, 0x00, 0x00, 0x00, 0x00]

/-- `convert_stl_to_u3d` from convert_stl_to_u3d.py (lines 226-263).
`rubyExitCode` is the return code of the generated Ruby script, and
`outFile` is the state of the expected output file (`none` when missing,
`some n` when present with size `n` bytes).  The function returns False
on a nonzero exit code, False when the output file does not exist, and
True otherwise; the size of an existing file is never inspected. -/
def convert_stl_to_u3d (rubyExitCode : Int) (outFile : Option Nat) : Bool :=
  if rubyExitCode != 0 then false
  else if outFile.isNone then false
  else true

/-- `main` from convert_stl_to_u3d.py (lines 319-355).  Returns the
process exit code together with whether `create_placeholder_u3d` was
invoked (the placeholder write itself always succeeds in the source
barring an OS error).  On the conversion path a failed conversion writes
the placeholder and still exits with code 1 (line 352). -/
def stl_main (placeholderFlag inputExists : Bool) (rubyExitCode : Int)
    (outFile : Option Nat) : Int × Bool :=
  if !inputExists then (1, false)
  else if placeholderFlag then (0, true)
  else if convert_stl_to_u3d rubyExitCode outFile then (0, false)
  else (1, true)

end ConvertStlToU3d

namespace ConvertObjToU3d

/-- External observations made by `find_idtf_converter`
(convert_obj_to_u3d.py lines 51-114): the outcomes of the two version
probes, the home directory, and the filesystem/glob answers for the
fixed candidate paths.  A probe that raises FileNotFoundError or a
subprocess error counts as a failed probe (`false`). -/
structure IdtfToolEnv where
  u3dGemVersionOk : Bool
  idtfConverterVersionOk : Bool
  home : String
  pathExists : String → Bool
  pathExecutable : String → Bool
  globMatches : String → List String

/-- The `possible_paths` list from `find_idtf_converter` (lines 78-93),
in source order, on a non-Windows platform (the win32 branch that
appends `.exe` variants is not modelled). -/
def possible_paths (home : String) : List String :=
  [home ++ "/bin/IDTFConverter",
   "/usr/local/bin/IDTFConverter",
   "/usr/bin/IDTFConverter",
   "./IDTFConverter",
   "./tools/IDTFConverter",
   "/opt/homebrew/bin/IDTFConverter",
   "/usr/local/lib/ruby/gems/*/bin/u3d",
   home ++ "/.gem/ruby/*/bin/u3d",
   home ++ "/.rbenv/shims/u3d"]

/-- Whether a candidate path is accepted by the filesystem stage of
`find_idtf_converter`: it exists and is executable (lines 107 and 110);
no version check is run at this stage. -/
def usable (env : IdtfToolEnv) (p : String) : Bool :=
  env.pathExists p && env.pathExecutable p

/-- The test `if "*" in str(path)` of line 103: whether a candidate path
is a glob pattern, i.e. contains a star character. -/
def has_glob (p : String) : Bool := p.toList.contains '*'

/-- The inner loop over glob matches (lines 104-109): return the first
match that exists and is executable. -/
def first_usable (env : IdtfToolEnv) : List String → Option String
  | [] => none
  | m :: rest => if usable env m then some m else first_usable env rest

/-- The loop over `possible_paths` (lines 101-112): a path containing a
star is expanded by glob and its matches scanned; a plain path is
accepted when it exists and is executable. -/
def search_paths (env : IdtfToolEnv) : List String → Option String
  | [] => none
  | p :: rest =>
    if has_glob p then
      match first_usable env (env.globMatches p) with
      | some m => some m
      | none => search_paths env rest
    else if usable env p then some p
    else search_paths env rest

/-- `find_idtf_converter` (convert_obj_to_u3d.py lines 51-114): probe
`u3d -version`, then `IDTFConverter --version`, then walk the fixed
filesystem path list; `none` when everything fails. -/
def find_idtf_converter (env : IdtfToolEnv) : Option String :=
  if env.u3dGemVersionOk then some "u3d"
  else if env.idtfConverterVersionOk then some "IDTFConverter"
  else search_paths env (possible_paths env.home)

/-- Lines written by the f-string header of the main path of
`create_idtf_from_obj` (convert_obj_to_u3d.py lines 215-254).  Inside
the f-string, `\x7b\x7b` and `\x7d\x7d` are escapes, so the emitted
braces are single. -/
def idtf_header_lines (faceCount vertexCount : Nat) : List String :=
  ["FILE_FORMAT \"IDTF\"",
   "FORMAT_VERSION 100",
   "",
   "NODE \"MODEL\" \x7b",
   "    NODE_NAME \"Model\"",
   "    PARENT_LIST \x7b",
   "        PARENT_COUNT 1",
   "        PARENT 0 \x7b",
   "            PARENT_NAME \"Scene_Root\"",
   "            PARENT_TM \x7b",
   "                1.0 0.0 0.0 0.0",
   "                0.0 1.0 0.0 0.0",
   "                0.0 0.0 1.0 0.0",
   "                0.0 0.0 0.0 1.0",
   "            \x7d",
   "        \x7d",
   "    \x7d",
   "    RESOURCE_NAME \"mesh_0\"",
   "\x7d",
   "",
   "RESOURCE_LIST \"MODEL\" \x7b",
   "    RESOURCE_COUNT 1",
   "    RESOURCE 0 \x7b",
   "        RESOURCE_NAME \"mesh_0\"",
   "        MODEL_TYPE \"MESH\"",
   "        MESH \x7b",
   "            FACE_COUNT " ++ toString faceCount,
   "            MODEL_POSITION_COUNT " ++ toString vertexCount,
   "            MODEL_NORMAL_COUNT " ++ toString vertexCount,
   "            MODEL_TEXCOORD_COUNT 0",
   "            MODEL_BONE_COUNT 0",
   "            MODEL_SHADING_COUNT 1",
   "            MODEL_SHADING_DESCRIPTION_LIST \x7b",
   "                SHADING_DESCRIPTION 0 \x7b",
   "                    TEXTURE_LAYER_COUNT 0",
   "                    SHADER_ID 0",
   "                \x7d",
   "            \x7d",
   "            MESH_FACE_POSITION_LIST \x7b // generated from OBJ file"]

/-- One line per face, `i: a b c` (line 258). -/
def mesh_face_position_entries (faces : List (Nat × Nat × Nat)) : List String :=
  faces.enum.map (fun p =>
    "                " ++ toString p.1 ++ ": " ++ toString p.2.1 ++ " " ++
      toString p.2.2.1 ++ " " ++ toString p.2.2.2)

/-- Lines 261-263: a plain (non-f) Python string, so the doubled braces
are written literally to the file. -/
def face_shading_list_open : List String :=
  ["            \x7d\x7d",
   "            MESH_FACE_SHADING_LIST \x7b\x7b"]

/-- One shading line per face, `i: 0` (line 267). -/
def mesh_face_shading_entries (faceCount : Nat) : List String :=
  (List.range faceCount).map (fun i => "                " ++ toString i ++ ": 0")

/-- Lines 269-271: plain string, literal doubled braces. -/
def face_normal_list_open : List String :=
  ["            \x7d\x7d",
   "            MESH_FACE_NORMAL_LIST \x7b\x7b"]

/-- One face-normal line per face, `i: 0 0 0` (line 276). -/
def mesh_face_normal_entries (faceCount : Nat) : List String :=
  (List.range faceCount).map (fun i => "                " ++ toString i ++ ": 0 0 0")

/-- Lines 278-280: plain string, literal doubled braces. -/
def model_position_list_open : List String :=
  ["            \x7d\x7d",
   "            MODEL_POSITION_LIST \x7b\x7b"]

/-- One position line per vertex, `i: x y z` (line 284); the coordinates
are taken as their textual rendering. -/
def model_position_entries (vertices : List (String × String × String)) : List String :=
  vertices.enum.map (fun p =>
    "                " ++ toString p.1 ++ ": " ++ p.2.1 ++ " " ++ p.2.2.1 ++ " " ++ p.2.2.2)

/-- Lines 286-288: plain string, literal doubled braces. -/
def model_normal_list_open : List String :=
  ["            \x7d\x7d",
   "            MODEL_NORMAL_LIST \x7b\x7b"]

/-- One vertex-normal line per vertex, `i: 0.0 0.0 1.0` (line 293). -/
def model_normal_entries (vertexCount : Nat) : List String :=
  (List.range vertexCount).map (fun i => "                " ++ toString i ++ ": 0.0 0.0 1.0")

/-- Lines 296-323: the closing plain string, again with literal doubled
braces, including the whole SHADER and MATERIAL resource lists. -/
def idtf_tail_lines : List String :=
  ["            \x7d\x7d",
   "        \x7d\x7d",
   "    \x7d\x7d",
   "\x7d\x7d",
   "",
   "RESOURCE_LIST \"SHADER\" \x7b\x7b",
   "    RESOURCE_COUNT 1",
   "    RESOURCE 0 \x7b\x7b",
   "        RESOURCE_NAME \"default_shader\"",
   "        ATTRIBUTE_USE_VERTEX_COLOR FALSE",
   "        SHADER_MATERIAL_NAME \"DefaultMaterial\"",
   "        SHADER_ACTIVE_TEXTURE_COUNT 0",
   "    \x7d\x7d",
   "\x7d\x7d",
   "",
   "RESOURCE_LIST \"MATERIAL\" \x7b\x7b",
   "    RESOURCE_COUNT 1",
   "    RESOURCE 0 \x7b\x7b",
   "        RESOURCE_NAME \"DefaultMaterial\"",
   "        MATERIAL_AMBIENT 0.2 0.2 0.2",
   "        MATERIAL_DIFFUSE 0.8 0.8 0.8",
   "        MATERIAL_SPECULAR 0.0 0.0 0.0",
   "        MATERIAL_EMISSIVE 0.0 0.0 0.0",
   "        MATERIAL_REFLECTIVITY 0.0",
   "        MATERIAL_OPACITY 1.0",
   "    \x7d\x7d",
   "\x7d\x7d"]

/-- The main (non-fallback) path of `create_idtf_from_obj`
(convert_obj_to_u3d.py lines 195-323), as the list of lines it writes,
for a mesh given by its vertices (coordinates as rendered text) and
triangular faces. -/
def create_idtf_from_obj (vertices : List (String × String × String))
    (faces : List (Nat × Nat × Nat)) : List String :=
  idtf_header_lines faces.length vertices.length ++
  mesh_face_position_entries faces ++
  face_shading_list_open ++
  mesh_face_shading_entries faces.length ++
  face_normal_list_open ++
  mesh_face_normal_entries faces.length ++
  model_position_list_open ++
  model_position_entries vertices ++
  model_normal_list_open ++
  model_normal_entries vertices.length ++
  idtf_tail_lines

/-- The hard-coded fallback template written by `create_idtf_from_obj`
on error (convert_obj_to_u3d.py lines 334-418): a plain string whose
braces are all single. -/
def fallback_idtf_lines : List String :=
  ["FILE_FORMAT \"IDTF\"",
   "FORMAT_VERSION 100",
   "",
   "NODE \"MODEL\" \x7b",
   "    NODE_NAME \"Model\"",
   "    PARENT_LIST \x7b",
   "        PARENT_COUNT 1",
   "        PARENT 0 \x7b",
   "            PARENT_NAME \"Scene_Root\"",
   "            PARENT_TM \x7b",
   "                1.0 0.0 0.0 0.0",
   "                0.0 1.0 0.0 0.0",
   "                0.0 0.0 1.0 0.0",
   "                0.0 0.0 0.0 1.0",
   "            \x7d",
   "        \x7d",
   "    \x7d",
   "    RESOURCE_NAME \"mesh_0\"",
   "\x7d",
   "",
   "RESOURCE_LIST \"MODEL\" \x7b",
   "    RESOURCE_COUNT 1",
   "    RESOURCE 0 \x7b",
   "        RESOURCE_NAME \"mesh_0\"",
   "        MODEL_TYPE \"MESH\"",
   "        MESH \x7b",
   "            FACE_COUNT 1",
   "            MODEL_POSITION_COUNT 3",
   "            MODEL_NORMAL_COUNT 3",
   "            MODEL_TEXCOORD_COUNT 0",
   "            MODEL_BONE_COUNT 0",
   "            MODEL_SHADING_COUNT 1",
   "            MODEL_SHADING_DESCRIPTION_LIST \x7b",
   "                SHADING_DESCRIPTION 0 \x7b",
   "                    TEXTURE_LAYER_COUNT 0",
   "                    SHADER_ID 0",
   "                \x7d",
   "            \x7d",
   "            MESH_FACE_POSITION_LIST \x7b",
   "                0: 0 1 2",
   "            \x7d",
   "            MESH_FACE_SHADING_LIST \x7b",
   "                0: 0",
   "            \x7d",
   "            MESH_FACE_NORMAL_LIST \x7b",
   "                0: 0 0 0",
   "            \x7d",
   "            MODEL_POSITION_LIST \x7b",
   "                0: 0.0 0.0 0.0",
   "                1: 1.0 0.0 0.0",
   "                2: 0.0 1.0 0.0",
   "            \x7d",
   "            MODEL_NORMAL_LIST \x7b",
   "                0: 0.0 0.0 1.0",
   "                1: 0.0 0.0 1.0",
   "                2: 0.0 0.0 1.0",
   "            \x7d",
   "        \x7d",
   "    \x7d",
   "\x7d",
   "",
   "RESOURCE_LIST \"SHADER\" \x7b",
   "    RESOURCE_COUNT 1",
   "    RESOURCE 0 \x7b",
   "        RESOURCE_NAME \"default_shader\"",
   "        ATTRIBUTE_USE_VERTEX_COLOR FALSE",
   "        SHADER_MATERIAL_NAME \"DefaultMaterial\"",
   "        SHADER_ACTIVE_TEXTURE_COUNT 0",
   "    \x7d",
   "\x7d",
   "",
   "RESOURCE_LIST \"MATERIAL\" \x7b",
   "    RESOURCE_COUNT 1",
   "    RESOURCE 0 \x7b",
   "        RESOURCE_NAME \"DefaultMaterial\"",
   "        MATERIAL_AMBIENT 0.2 0.2 0.2",
   "        MATERIAL_DIFFUSE 0.8 0.8 0.8",
   "        MATERIAL_SPECULAR 0.0 0.0 0.0",
   "        MATERIAL_EMISSIVE 0.0 0.0 0.0",
   "        MATERIAL_REFLECTIVITY 0.0",
   "        MATERIAL_OPACITY 1.0",
   "    \x7d",
   "\x7d"]

/-- External observations made by `convert_idtf_to_u3d`
(convert_obj_to_u3d.py lines 423-532): the converter chosen at
construction time, the exit code of the first conversion run, the
IDTFConverter executables found inside the installed gems, the exit code
of the gem-internal retry, and whether the expected U3D file exists
afterwards. -/
structure IdtfToU3dEnv where
  converter : Option String
  firstRunExitCode : Int
  gemConverterMatches : List String
  altRunExitCode : Int
  u3dFileExists : Bool

/-- `convert_idtf_to_u3d` (convert_obj_to_u3d.py lines 423-532), reduced
to whether it reports success (returns a path) or failure (returns
None).  With no converter it fails; a nonzero first run is retried via
the gem-internal IDTFConverter only when the chosen converter is the
`u3d` gem; finally the expected output file must exist.  File size is
never inspected. -/
def convert_idtf_to_u3d (env : IdtfToU3dEnv) : Bool :=
  match env.converter with
  | none => false
  | some conv =>
    if env.firstRunExitCode != 0 then
      if conv == "u3d" then
        match env.gemConverterMatches with
        | [] => false
        | _ :: _ =>
          if env.altRunExitCode != 0 then false
          else env.u3dFileExists
      else false
    else env.u3dFileExists

/-- `main` from convert_obj_to_u3d.py (lines 570-596): exit 0 when the
pipeline returned a U3D file that exists, exit 1 otherwise. -/
def obj_main (inputOk pipelineOk : Bool) : Int :=
  if !inputOk then 1
  else if pipelineOk then 0
  else 1

end ConvertObjToU3d

namespace Pipeline

/-- The fixed list of candidate Blender locations probed by
`find_blender` (convert_obj_u3d_pipeline.py lines 19-40), in source
order. -/
def blender_paths : List String :=
  ["/Applications/Blender.app/Contents/MacOS/blender",
   "C:\\Program Files\\Blender Foundation\\Blender\\blender.exe",
   "/usr/bin/blender",
   "blender"]

/-- The probing loop of `find_blender`: run `path --version` and accept
the first candidate whose process exits 0 with `Blender` in its output;
`versionOk` bundles that per-candidate outcome (a raised
FileNotFoundError or PermissionError counts as `false`). -/
def find_blender_loop (versionOk : String → Bool) : List String → Option String
  | [] => none
  | p :: rest => if versionOk p then some p else find_blender_loop versionOk rest

/-- `find_blender` (convert_obj_u3d_pipeline.py lines 19-40). -/
def find_blender (versionOk : String → Bool) : Option String :=
  find_blender_loop versionOk blender_paths

/-- External observations of one `convert_stl_to_u3d` run in the
pipeline (convert_obj_u3d_pipeline.py lines 127-189): the exit codes of
the four command syntaxes in the order they would be tried, and whether
the expected U3D file exists afterwards. -/
structure StlRunEnv where
  rubyExitCode : Int
  u3dConvertExitCode : Int
  u3dDirectExitCode : Int
  stl2u3dExitCode : Int
  u3dFileExists : Bool

/-- The four command syntaxes of the pipeline's `convert_stl_to_u3d`, in
the fixed order the source tries them (lines 136, 157, 167, 173). -/
def command_syntaxes : List String :=
  ["ruby <script>",
   "u3d convert --input <stl> --output <u3d>",
   "u3d --input <stl> --output <u3d>",
   "stl2u3d <stl> <u3d>"]

/-- The commands actually run by the pipeline's `convert_stl_to_u3d`,
mirroring its nested retry structure: each alternative is launched only
after the previous one returned a nonzero exit code. -/
def commands_tried (env : StlRunEnv) : List String :=
  "ruby <script>" ::
    (if env.rubyExitCode == 0 then []
     else "u3d convert --input <stl> --output <u3d>" ::
       (if env.u3dConvertExitCode == 0 then []
        else "u3d --input <stl> --output <u3d>" ::
          (if env.u3dDirectExitCode == 0 then []
           else ["stl2u3d <stl> <u3d>"])))

/-- The pipeline's `convert_stl_to_u3d` (lines 127-189), reduced to its
reported outcome: False when all four syntaxes exited nonzero, otherwise
the existence of the expected output file. -/
def convert_stl_to_u3d (env : StlRunEnv) : Bool :=
  if env.rubyExitCode != 0 && env.u3dConvertExitCode != 0 &&
     env.u3dDirectExitCode != 0 && env.stl2u3dExitCode != 0 then false
  else env.u3dFileExists

end Pipeline

namespace PymeshlabU3d

/-- An environment-variable state restricted to the two locale variables
the scripts touch. -/
structure LocaleEnv where
  lcAll : Option String
  lang : Option String
deriving DecidableEq

/-- The locale both setup helpers write: `en_US.UTF-8` in `LC_ALL` and
`LANG`. -/
def en_locale : LocaleEnv := ⟨some "en_US.UTF-8", some "en_US.UTF-8"⟩

/-- `ensure_locale_setup` (pymeshlab_u3d_example.py lines 66-72): only
when `LC_ALL` or `LANG` is absent from the environment are both set to
`en_US.UTF-8`; otherwise the environment is left untouched. -/
def ensure_locale_setup (e : LocaleEnv) : LocaleEnv :=
  if e.lcAll.isNone || e.lang.isNone then en_locale else e

/-- Outcomes of the external steps taken by `convert_to_u3d`
(pymeshlab_u3d_example.py lines 74-198): input-file existence, the
`check_u3d_support` probe, whether the direct `save_current_mesh` export
produced a non-empty file, whether the intermediate STL save succeeded,
the result of the fallback `convert_stl_to_u3d.convert_stl_to_u3d`, and
the result of `convert_stl_to_u3d.create_placeholder_u3d`. -/
structure PymeshlabRun where
  inputExists : Bool
  hasU3dSupport : Bool
  directExportOk : Bool
  stlSaveOk : Bool
  fallbackConvertOk : Bool
  placeholderOk : Bool
deriving DecidableEq

/-- `convert_to_u3d` (pymeshlab_u3d_example.py lines 74-198): the Bool
it returns, together with the locale environment in effect from the
`ensure_locale_setup` call (line 78) onwards, i.e. during every export
attempt.  Note lines 179-186: when the fallback converter fails but the
placeholder write succeeds, the function returns True. -/
def convert_to_u3d (r : PymeshlabRun) (e : LocaleEnv) : Bool × LocaleEnv :=
  let e2 := ensure_locale_setup e
  if !r.inputExists then (false, e2)
  else if r.hasU3dSupport && r.directExportOk then (true, e2)
  else if !r.stlSaveOk then (false, e2)
  else if r.fallbackConvertOk then (true, e2)
  else if r.placeholderOk then (true, e2)
  else (false, e2)

/-- Whether a run of `convert_to_u3d` ends with only the hard-coded
placeholder written: every real strategy failed (no successful direct
export, fallback converter failed) and the placeholder write
succeeded. -/
def placeholder_only_run (r : PymeshlabRun) : Bool :=
  r.inputExists && !(r.hasU3dSupport && r.directExportOk) && r.stlSaveOk &&
    !r.fallbackConvertOk && r.placeholderOk

/-- `main` from pymeshlab_u3d_example.py (lines 200-222): exit 0 when
`convert_to_u3d` returned True, exit 1 otherwise. -/
def pymeshlab_main (r : PymeshlabRun) (e : LocaleEnv) : Int :=
  if (convert_to_u3d r e).1 then 0 else 1

end PymeshlabU3d

namespace SetupPymeshlab

/-- `setup_locale` (setup_pymeshlab_u3d.py lines 138-152): on the happy
path it sets both `LC_ALL` and `LANG` to `en_US.UTF-8` and returns True;
when writing `/etc/locale.gen` raises, the except branch returns False
with the environment untouched. -/
def setup_locale (writeOk : Bool) (e : PymeshlabU3d.LocaleEnv) :
    Bool × PymeshlabU3d.LocaleEnv :=
  if writeOk then (true, PymeshlabU3d.en_locale) else (false, e)

end SetupPymeshlab

namespace ConvertObjToU3d

/-- A concrete 3-vertex mesh used to evaluate the serializer: the unit
triangle, with coordinates as `create_idtf_from_obj` renders them. -/
def demo_vertices : List (String × String × String) :=
  [("0.0", "0.0", "0.0"), ("1.0", "0.0", "0.0"), ("0.0", "1.0", "0.0")]

/-- The single face of the concrete demo mesh. -/
def demo_faces : List (Nat × Nat × Nat) := [(0, 1, 2)]

end ConvertObjToU3d

/-- C4: every placeholder U3D file written by `create_placeholder_u3d`
begins with the 4-byte magic sequence 0x55 0x33 0x44 0x00, exactly the
sequence `is_valid_u3d` compares against the first four bytes of its
input. -/
theorem placeholder_u3d_magic :
    ConvertStlToU3d.create_placeholder_u3d_data.take 4 = ExamplePdf.u3d_magic ∧
    ExamplePdf.has_valid_magic ConvertStlToU3d.create_placeholder_u3d_data = true := by
  decide

/-- C10: `is_valid_u3d` rejects every readable file smaller than 100
bytes (regardless of its magic) and accepts every readable file of at
least 100 bytes (regardless of its magic, which only triggers a
warning); the 72-byte dummy file of `create_dummy_u3d` carries the
correct magic and still fails the validator. -/
theorem is_valid_u3d_size_gate :
    (∀ f : List Nat, f.length < 100 → ExamplePdf.is_valid_u3d f = false) ∧
    (∀ f : List Nat, 100 ≤ f.length → ExamplePdf.is_valid_u3d f = true) ∧
    ExamplePdf.create_dummy_u3d_data.length = 72 ∧
    ExamplePdf.has_valid_magic ExamplePdf.create_dummy_u3d_data = true ∧
    ExamplePdf.is_valid_u3d ExamplePdf.create_dummy_u3d_data = false := by
  refine ⟨?_, ?_, by decide, by decide, by decide⟩
  · intro f h
    unfold ExamplePdf.is_valid_u3d
    by_cases h32 : (List.take 32 f).length < 32
    · simp [h32]
      exact fun _ => h
    · simp [h32, h]
  · intro f h
    unfold ExamplePdf.is_valid_u3d
    have h32 : ¬(List.take 32 f).length < 32 := by
      simp only [List.length_take]
      omega
    have h100 : ¬f.length < 100 := by omega
    simp [h32, h100]
    omega

/-- Witness for C10: a 99-byte file is rejected and a 100-byte file is
accepted. -/
theorem is_valid_u3d_size_gate_witness :
    ExamplePdf.is_valid_u3d (List.replicate 99 0) = false ∧
    ExamplePdf.is_valid_u3d (List.replicate 100 0) = true :=
  ⟨is_valid_u3d_size_gate.1 (List.replicate 99 0) (by decide),
   is_valid_u3d_size_gate.2.1 (List.replicate 100 0) (by decide)⟩

/-- C3 (recording the code bug): on the main path,
`create_idtf_from_obj` closes the `MESH_FACE_POSITION_LIST` section and
all following sections with literally doubled braces — the section
separators and the tail are plain (non-f) Python strings, so their
escaped braces reach the file verbatim — while the fallback template
written by the same function uses single braces throughout. -/
theorem create_idtf_main_path_doubled_braces :
    "            \x7d\x7d" ∈
      ConvertObjToU3d.create_idtf_from_obj ConvertObjToU3d.demo_vertices
        ConvertObjToU3d.demo_faces ∧
    "            MESH_FACE_SHADING_LIST \x7b\x7b" ∈
      ConvertObjToU3d.create_idtf_from_obj ConvertObjToU3d.demo_vertices
        ConvertObjToU3d.demo_faces ∧
    "            \x7d\x7d" ∉ ConvertObjToU3d.fallback_idtf_lines ∧
    "            MESH_FACE_SHADING_LIST \x7b" ∈ ConvertObjToU3d.fallback_idtf_lines ∧
    "            \x7d" ∈ ConvertObjToU3d.fallback_idtf_lines := by
  decide

/-- C5: the PDF produced by `create_3d_pdf`/`embed_u3d` holds exactly
one annotation whose subtype is 3D, and that annotation's 3DD stream
data is exactly the byte content of the supplied U3D file. -/
theorem create_3d_pdf_single_3d_annot (u3dData : List Nat) :
    ((ExamplePdf.create_3d_pdf u3dData).filter
        (fun a => a.subtype == "3D")).length = 1 ∧
    ∀ a, a ∈ ExamplePdf.create_3d_pdf u3dData → a.subtype = "3D" →
      a.ddStreamData = some u3dData := by
  constructor
  · rfl
  · intro a ha _
    simp [ExamplePdf.create_3d_pdf, ExamplePdf.embed_u3d,
      ExamplePdf.base_page_annots] at ha
    subst ha
    rfl

/-- Witness for C5 at the concrete U3D byte content `[1, 2, 3]`. -/
theorem create_3d_pdf_single_3d_annot_witness :
    ((ExamplePdf.create_3d_pdf [1, 2, 3]).filter
        (fun a => a.subtype == "3D")).length = 1 ∧
    (ExamplePdf.mk_3d_annot [1, 2, 3]).ddStreamData = some [1, 2, 3] :=
  ⟨(create_3d_pdf_single_3d_annot [1, 2, 3]).1,
   (create_3d_pdf_single_3d_annot [1, 2, 3]).2 (ExamplePdf.mk_3d_annot [1, 2, 3])
     (by decide) (by decide)⟩

/-- C2: for every mesh the main path of `create_idtf_from_obj`
serializes, the output contains a `FACE_COUNT` line equal to the face
count and a `MODEL_POSITION_COUNT` line equal to the vertex count, and
the four written lists have exactly that many indexed entries. -/
theorem create_idtf_counts (vertices : List (String × String × String))
    (faces : List (Nat × Nat × Nat)) :
    ("            FACE_COUNT " ++ toString faces.length) ∈
      ConvertObjToU3d.create_idtf_from_obj vertices faces ∧
    ("            MODEL_POSITION_COUNT " ++ toString vertices.length) ∈
      ConvertObjToU3d.create_idtf_from_obj vertices faces ∧
    (ConvertObjToU3d.mesh_face_position_entries faces).length = faces.length ∧
    (ConvertObjToU3d.mesh_face_shading_entries faces.length).length = faces.length ∧
    (ConvertObjToU3d.mesh_face_normal_entries faces.length).length = faces.length ∧
    (ConvertObjToU3d.model_position_entries vertices).length = vertices.length := by
  refine ⟨?_, ?_, ?_, ?_, ?_, ?_⟩
  · simp [ConvertObjToU3d.create_idtf_from_obj, ConvertObjToU3d.idtf_header_lines]
  · simp [ConvertObjToU3d.create_idtf_from_obj, ConvertObjToU3d.idtf_header_lines]
  · simp [ConvertObjToU3d.mesh_face_position_entries]
  · simp [ConvertObjToU3d.mesh_face_shading_entries]
  · simp [ConvertObjToU3d.mesh_face_normal_entries]
  · simp [ConvertObjToU3d.model_position_entries]

/-- C1 (counterexample): a pymeshlab_u3d_example.py run in which every
real strategy fails (no U3D support, fallback converter fails) and only
the hard-coded placeholder is written exits with code 0, not 1: the
failure is recovered invisibly, contradicting the claim. -/
theorem pymeshlab_placeholder_run_exits_zero :
    PymeshlabU3d.placeholder_only_run ⟨true, false, false, true, false, true⟩ = true ∧
    PymeshlabU3d.pymeshlab_main ⟨true, false, false, true, false, true⟩ ⟨none, none⟩ = 0 := by
  decide

/-- C1 (amended): convert_stl_to_u3d.py's CLI exits 0 exactly on a
successful conversion and exits 1 on a failed one even though it then
writes the placeholder; pymeshlab_u3d_example.py's CLI, however, exits 0
on every placeholder-only run. -/
theorem cli_exit_codes_amended :
    (∀ (rc : Int) (out : Option Nat),
        ConvertStlToU3d.convert_stl_to_u3d rc out = true →
        ConvertStlToU3d.stl_main false true rc out = (0, false)) ∧
    (∀ (rc : Int) (out : Option Nat),
        ConvertStlToU3d.convert_stl_to_u3d rc out = false →
        ConvertStlToU3d.stl_main false true rc out = (1, true)) ∧
    (∀ (r : PymeshlabU3d.PymeshlabRun) (e : PymeshlabU3d.LocaleEnv),
        PymeshlabU3d.placeholder_only_run r = true →
        PymeshlabU3d.pymeshlab_main r e = 0) := by
  refine ⟨?_, ?_, ?_⟩
  · intro rc out h
    simp [ConvertStlToU3d.stl_main, h]
  · intro rc out h
    simp [ConvertStlToU3d.stl_main, h]
  · intro r e h
    obtain ⟨ie, hs, de, ss, fb, po⟩ := r
    cases ie <;> cases hs <;> cases de <;> cases ss <;> cases fb <;> cases po <;>
      simp_all [PymeshlabU3d.placeholder_only_run, PymeshlabU3d.pymeshlab_main,
        PymeshlabU3d.convert_to_u3d]

/-- Witness for C1 (amended) at concrete run outcomes. -/
theorem cli_exit_codes_amended_witness :
    ConvertStlToU3d.stl_main false true 0 (some 10) = (0, false) ∧
    ConvertStlToU3d.stl_main false true 1 none = (1, true) ∧
    PymeshlabU3d.pymeshlab_main ⟨true, true, false, true, false, true⟩ ⟨none, none⟩ = 0 :=
  ⟨cli_exit_codes_amended.1 0 (some 10) (by decide),
   cli_exit_codes_amended.2.1 1 none (by decide),
   cli_exit_codes_amended.2.2 ⟨true, true, false, true, false, true⟩ ⟨none, none⟩ (by decide)⟩

/-- C6 (counterexample): with exit code 0 and an output file that exists
with size 0 bytes, the STL conversion step reports success — an empty
expected output file is not reported as a failure, because neither
cited step ever inspects the file size. -/
theorem empty_output_reported_success :
    ConvertStlToU3d.convert_stl_to_u3d 0 (some 0) = true := by
  decide

/-- C6 (amended): each cited conversion step reports success exactly
when the subprocess exit code is zero and the expected output file
exists; a missing output file is a failure, but emptiness of an
existing output file is never checked.  For `convert_idtf_to_u3d` this
is stated on its direct-binary path (a converter other than the `u3d`
gem), where exactly one subprocess runs. -/
theorem step_success_criterion_amended :
    (∀ (rc : Int) (out : Option Nat),
        ConvertStlToU3d.convert_stl_to_u3d rc out = true ↔
          rc = 0 ∧ out.isSome = true) ∧
    (∀ (env : ConvertObjToU3d.IdtfToU3dEnv) (conv : String),
        env.converter = some conv → conv ≠ "u3d" →
        (ConvertObjToU3d.convert_idtf_to_u3d env = true ↔
          env.firstRunExitCode = 0 ∧ env.u3dFileExists = true)) := by
  constructor
  · intro rc out
    cases out <;> by_cases h : rc = 0 <;>
      simp [ConvertStlToU3d.convert_stl_to_u3d, h]
  · intro env conv h1 h2
    unfold ConvertObjToU3d.convert_idtf_to_u3d
    rw [h1]
    have hc : (conv == "u3d") = false := by
      simp [h2]
    by_cases hr : env.firstRunExitCode = 0
    · simp [hr]
    · simp [hr, hc]

/-- Witness for C6 (amended) at concrete step outcomes. -/
theorem step_success_criterion_amended_witness :
    (ConvertStlToU3d.convert_stl_to_u3d 0 (some 5) = true ↔
      (0 : Int) = 0 ∧ (some 5 : Option Nat).isSome = true) ∧
    (ConvertObjToU3d.convert_idtf_to_u3d ⟨some "IDTFConverter", 0, [], 0, true⟩ = true ↔
      (0 : Int) = 0 ∧ true = true) :=
  ⟨step_success_criterion_amended.1 0 (some 5),
   step_success_criterion_amended.2 ⟨some "IDTFConverter", 0, [], 0, true⟩
     "IDTFConverter" rfl (by decide)⟩

/-- C9 (counterexample): when `LC_ALL` and `LANG` are both already
present (here with value "C"), a run of `convert_to_u3d` leaves them
unchanged — they are not set to `en_US.UTF-8` for that export. -/
theorem locale_not_overwritten :
    (PymeshlabU3d.convert_to_u3d ⟨true, true, true, true, true, true⟩
        ⟨some "C", some "C"⟩).2.lcAll = some "C" ∧
    (some "C" : Option String) ≠ some "en_US.UTF-8" := by
  decide

/-- C9 (amended): every export attempted through `convert_to_u3d` runs
under the locale produced by `ensure_locale_setup`; that helper leaves
both variables defined, and sets them to `en_US.UTF-8` exactly when at
least one of them was unset, while `setup_locale` of the setup script
overwrites both unconditionally on its happy path. -/
theorem locale_setup_amended :
    (∀ (r : PymeshlabU3d.PymeshlabRun) (e : PymeshlabU3d.LocaleEnv),
        (PymeshlabU3d.convert_to_u3d r e).2 = PymeshlabU3d.ensure_locale_setup e) ∧
    (∀ e : PymeshlabU3d.LocaleEnv,
        (PymeshlabU3d.ensure_locale_setup e).lcAll.isSome = true ∧
        (PymeshlabU3d.ensure_locale_setup e).lang.isSome = true) ∧
    (∀ e : PymeshlabU3d.LocaleEnv, e.lcAll = none ∨ e.lang = none →
        PymeshlabU3d.ensure_locale_setup e = PymeshlabU3d.en_locale) ∧
    (∀ e : PymeshlabU3d.LocaleEnv,
        SetupPymeshlab.setup_locale true e = (true, PymeshlabU3d.en_locale)) := by
  refine ⟨?_, ?_, ?_, ?_⟩
  · intro r e
    obtain ⟨ie, hs, de, ss, fb, po⟩ := r
    cases ie <;> cases hs <;> cases de <;> cases ss <;> cases fb <;> cases po <;> rfl
  · intro e
    obtain ⟨a, b⟩ := e
    cases a <;> cases b <;>
      simp [PymeshlabU3d.ensure_locale_setup, PymeshlabU3d.en_locale]
  · intro e h
    obtain ⟨a, b⟩ := e
    cases a <;> cases b <;>
      simp_all [PymeshlabU3d.ensure_locale_setup, PymeshlabU3d.en_locale]
  · intro e
    rfl

/-- Witness for C9 (amended): with `LANG` unset, both variables are set
to `en_US.UTF-8`. -/
theorem locale_setup_amended_witness :
    PymeshlabU3d.ensure_locale_setup ⟨some "C", none⟩ = PymeshlabU3d.en_locale :=
  locale_setup_amended.2.2.1 ⟨some "C", none⟩ (Or.inr rfl)

/-- C7: the pipeline's `convert_stl_to_u3d` launches the four known
command syntaxes in their fixed order — the commands it runs always form
an initial segment of the fixed list, and each alternative is launched
only after every earlier one returned a nonzero exit code — and
convert_stl_to_u3d.py's `main` (on the conversion path, with an existing
input) writes the hard-coded placeholder exactly when the conversion
step as a whole reported failure. -/
theorem fallback_chain_fixed_order :
    (∀ env : Pipeline.StlRunEnv, ∃ k, 1 ≤ k ∧ k ≤ 4 ∧
        Pipeline.commands_tried env = Pipeline.command_syntaxes.take k) ∧
    (∀ env : Pipeline.StlRunEnv,
        "u3d convert --input <stl> --output <u3d>" ∈ Pipeline.commands_tried env →
        env.rubyExitCode ≠ 0) ∧
    (∀ env : Pipeline.StlRunEnv,
        "u3d --input <stl> --output <u3d>" ∈ Pipeline.commands_tried env →
        env.rubyExitCode ≠ 0 ∧ env.u3dConvertExitCode ≠ 0) ∧
    (∀ env : Pipeline.StlRunEnv,
        "stl2u3d <stl> <u3d>" ∈ Pipeline.commands_tried env →
        env.rubyExitCode ≠ 0 ∧ env.u3dConvertExitCode ≠ 0 ∧
          env.u3dDirectExitCode ≠ 0) ∧
    (∀ (rc : Int) (out : Option Nat),
        (ConvertStlToU3d.stl_main false true rc out).2 = true ↔
          ConvertStlToU3d.convert_stl_to_u3d rc out = false) := by
  refine ⟨?_, ?_, ?_, ?_, ?_⟩
  · intro env
    by_cases h1 : env.rubyExitCode = 0
    · refine ⟨1, by omega, by omega, ?_⟩
      have hl : Pipeline.commands_tried env = ["ruby <script>"] := by
        simp [Pipeline.commands_tried, h1]
      rw [hl]
      rfl
    · by_cases h2 : env.u3dConvertExitCode = 0
      · refine ⟨2, by omega, by omega, ?_⟩
        have hl : Pipeline.commands_tried env =
            ["ruby <script>", "u3d convert --input <stl> --output <u3d>"] := by
          simp [Pipeline.commands_tried, h1, h2]
        rw [hl]
        rfl
      · by_cases h3 : env.u3dDirectExitCode = 0
        · refine ⟨3, by omega, by omega, ?_⟩
          have hl : Pipeline.commands_tried env =
              ["ruby <script>", "u3d convert --input <stl> --output <u3d>",
               "u3d --input <stl> --output <u3d>"] := by
            simp [Pipeline.commands_tried, h1, h2, h3]
          rw [hl]
          rfl
        · refine ⟨4, by omega, by omega, ?_⟩
          have hl : Pipeline.commands_tried env =
              ["ruby <script>", "u3d convert --input <stl> --output <u3d>",
               "u3d --input <stl> --output <u3d>", "stl2u3d <stl> <u3d>"] := by
            simp [Pipeline.commands_tried, h1, h2, h3]
          rw [hl]
          rfl
  · intro env h
    by_cases h1 : env.rubyExitCode = 0
    · have hl : Pipeline.commands_tried env = ["ruby <script>"] := by
        simp [Pipeline.commands_tried, h1]
      rw [hl] at h
      exact absurd h (by decide)
    · exact h1
  · intro env h
    by_cases h1 : env.rubyExitCode = 0
    · have hl : Pipeline.commands_tried env = ["ruby <script>"] := by
        simp [Pipeline.commands_tried, h1]
      rw [hl] at h
      exact absurd h (by decide)
    · by_cases h2 : env.u3dConvertExitCode = 0
      · have hl : Pipeline.commands_tried env =
            ["ruby <script>", "u3d convert --input <stl> --output <u3d>"] := by
          simp [Pipeline.commands_tried, h1, h2]
        rw [hl] at h
        exact absurd h (by decide)
      · exact ⟨h1, h2⟩
  · intro env h
    by_cases h1 : env.rubyExitCode = 0
    · have hl : Pipeline.commands_tried env = ["ruby <script>"] := by
        simp [Pipeline.commands_tried, h1]
      rw [hl] at h
      exact absurd h (by decide)
    · by_cases h2 : env.u3dConvertExitCode = 0
      · have hl : Pipeline.commands_tried env =
            ["ruby <script>", "u3d convert --input <stl> --output <u3d>"] := by
          simp [Pipeline.commands_tried, h1, h2]
        rw [hl] at h
        exact absurd h (by decide)
      · by_cases h3 : env.u3dDirectExitCode = 0
        · have hl : Pipeline.commands_tried env =
              ["ruby <script>", "u3d convert --input <stl> --output <u3d>",
               "u3d --input <stl> --output <u3d>"] := by
            simp [Pipeline.commands_tried, h1, h2, h3]
          rw [hl] at h
          exact absurd h (by decide)
        · exact ⟨h1, h2, h3⟩
  · intro rc out
    cases out <;> by_cases h : rc = 0 <;>
      simp [ConvertStlToU3d.stl_main, ConvertStlToU3d.convert_stl_to_u3d, h]

/-- Witness for C7: the hypotheses of the ordering implications
discharged on runs in which one, two and three syntaxes fail. -/
theorem fallback_chain_fixed_order_witness :
    ((1 : Int) ≠ 0) ∧ ((1 : Int) ≠ 0 ∧ (1 : Int) ≠ 0) ∧
      ((1 : Int) ≠ 0 ∧ (1 : Int) ≠ 0 ∧ (1 : Int) ≠ 0) :=
  ⟨fallback_chain_fixed_order.2.1 ⟨1, 0, 0, 0, true⟩ (by decide),
   fallback_chain_fixed_order.2.2.1 ⟨1, 1, 0, 0, true⟩ (by decide),
   fallback_chain_fixed_order.2.2.2.1 ⟨1, 1, 1, 0, true⟩ (by decide)⟩

/-- The probing loop of `find_blender` returns the first candidate
accepted by the version check. -/
theorem find_blender_loop_eq_find (versionOk : String → Bool) (ps : List String) :
    Pipeline.find_blender_loop versionOk ps = ps.find? versionOk := by
  induction ps with
  | nil => rfl
  | cons p rest ih =>
    unfold Pipeline.find_blender_loop
    cases h : versionOk p <;> simp [List.find?, h, ih]

/-- The glob-match scan of `find_idtf_converter` returns the first
existing executable match. -/
theorem first_usable_eq_find (env : ConvertObjToU3d.IdtfToolEnv) (ms : List String) :
    ConvertObjToU3d.first_usable env ms = ms.find? (ConvertObjToU3d.usable env) := by
  induction ms with
  | nil => rfl
  | cons m rest ih =>
    unfold ConvertObjToU3d.first_usable
    cases h : ConvertObjToU3d.usable env m <;> simp [List.find?, h, ih]

/-- `find?` over an appended list scans the left part first. -/
theorem find_append_eq (p : String → Bool) (l1 l2 : List String) :
    (l1 ++ l2).find? p =
      (match l1.find? p with
       | some m => some m
       | none => l2.find? p) := by
  induction l1 with
  | nil => rfl
  | cons a rest ih =>
    cases h : p a <;> simp [List.find?, h, ih]

/-- The filesystem stage of `find_idtf_converter` scans the candidate
paths — glob paths expanded to their matches, plain paths kept — in
order and returns the first that exists and is executable. -/
theorem search_paths_eq_find (env : ConvertObjToU3d.IdtfToolEnv) (ps : List String) :
    ConvertObjToU3d.search_paths env ps =
      (ps.flatMap (fun p => if ConvertObjToU3d.has_glob p then env.globMatches p else [p])).find?
        (ConvertObjToU3d.usable env) := by
  induction ps with
  | nil => rfl
  | cons p rest ih =>
    unfold ConvertObjToU3d.search_paths
    by_cases h : ConvertObjToU3d.has_glob p
    · rw [if_pos h, List.flatMap_cons, if_pos h, find_append_eq,
        ← first_usable_eq_find]
      cases ConvertObjToU3d.first_usable env (env.globMatches p) <;> simp [ih]
    · rw [if_neg h, List.flatMap_cons, if_neg h, List.singleton_append]
      cases hu : ConvertObjToU3d.usable env p <;> simp [List.find?, hu, ih]

/-- C8 (counterexample): with both version probes failing and a
filesystem candidate ("/usr/bin/IDTFConverter") that exists and is
executable but — like all candidates in this environment — has not
responded to any version check, `find_idtf_converter` still returns
that candidate instead of None: the filesystem stage performs no
version check. -/
theorem find_idtf_converter_without_version_check :
    ConvertObjToU3d.find_idtf_converter
      ⟨false, false, "/root",
       fun p => p == "/usr/bin/IDTFConverter",
       fun p => p == "/usr/bin/IDTFConverter",
       fun _ => []⟩ = some "/usr/bin/IDTFConverter" ∧
    (some "/usr/bin/IDTFConverter" : Option String) ≠ none := by
  exact ⟨by decide, by decide⟩

/-- C8 (amended): `find_blender` returns the first candidate of its
fixed list that responds successfully to the version check and None
otherwise; `find_idtf_converter` first version-probes the two PATH
commands `u3d` and `IDTFConverter`, and when both fail it returns the
first candidate of its fixed filesystem path list (glob patterns
expanded) that exists and is executable — without any version check —
or None when everything fails. -/
theorem tool_discovery_amended :
    (∀ versionOk : String → Bool,
        Pipeline.find_blender versionOk = Pipeline.blender_paths.find? versionOk) ∧
    (∀ env : ConvertObjToU3d.IdtfToolEnv, env.u3dGemVersionOk = true →
        ConvertObjToU3d.find_idtf_converter env = some "u3d") ∧
    (∀ env : ConvertObjToU3d.IdtfToolEnv, env.u3dGemVersionOk = false →
        env.idtfConverterVersionOk = true →
        ConvertObjToU3d.find_idtf_converter env = some "IDTFConverter") ∧
    (∀ env : ConvertObjToU3d.IdtfToolEnv, env.u3dGemVersionOk = false →
        env.idtfConverterVersionOk = false →
        ConvertObjToU3d.find_idtf_converter env =
          ((ConvertObjToU3d.possible_paths env.home).flatMap
              (fun p => if ConvertObjToU3d.has_glob p then env.globMatches p else [p])).find?
            (ConvertObjToU3d.usable env)) := by
  refine ⟨?_, ?_, ?_, ?_⟩
  · intro versionOk
    exact find_blender_loop_eq_find versionOk Pipeline.blender_paths
  · intro env h
    simp [ConvertObjToU3d.find_idtf_converter, h]
  · intro env h1 h2
    simp [ConvertObjToU3d.find_idtf_converter, h1, h2]
  · intro env h1 h2
    rw [ConvertObjToU3d.find_idtf_converter, if_neg (by simp [h1]),
      if_neg (by simp [h2])]
    exact search_paths_eq_find env (ConvertObjToU3d.possible_paths env.home)

/-- Witness for C8 (amended) at concrete discovery environments. -/
theorem tool_discovery_amended_witness :
    ConvertObjToU3d.find_idtf_converter
      ⟨true, false, "/root", fun _ => false, fun _ => false, fun _ => []⟩ = some "u3d" ∧
    ConvertObjToU3d.find_idtf_converter
      ⟨false, true, "/root", fun _ => false, fun _ => false, fun _ => []⟩ =
        some "IDTFConverter" ∧
    ConvertObjToU3d.find_idtf_converter
      ⟨false, false, "/root", fun _ => false, fun _ => false, fun _ => []⟩ =
      ((ConvertObjToU3d.possible_paths "/root").flatMap
          (fun p => if ConvertObjToU3d.has_glob p then
            (⟨false, false, "/root", fun _ => false, fun _ => false,
              fun _ => []⟩ : ConvertObjToU3d.IdtfToolEnv).globMatches p else [p])).find?
        (ConvertObjToU3d.usable
          ⟨false, false, "/root", fun _ => false, fun _ => false, fun _ => []⟩) :=
  ⟨tool_discovery_amended.2.1
     ⟨true, false, "/root", fun _ => false, fun _ => false, fun _ => []⟩ rfl,
   tool_discovery_amended.2.2.1
     ⟨false, true, "/root", fun _ => false, fun _ => false, fun _ => []⟩ rfl rfl,
   tool_discovery_amended.2.2.2
     ⟨false, false, "/root", fun _ => false, fun _ => false, fun _ => []⟩ rfl rfl⟩
